import Mathlib

/-!
# OpenDx streaming relay — shallow embedding and verification

This file embeds the streaming chat relay of the OpenDx API server
(`src/api/server.py`) and its authentication helpers (`src/api/auth.py`)
as pure Lean functions, and proves/refutes the specified properties.

Modelling conventions:
* One chat interaction is embedded as a finite trace of `Item`s: the
  client-facing events that the generator yields, interleaved with the
  Case Store operations it invokes, in program order.
* `uuid.uuid4()` draws are modelled by an explicit supply `fresh : Nat → String`
  (draw 0 is the case id, draw 1 the user-message id, draws 2, 3, … the
  agent-message ids, in the order the source draws them).
* The upstream HTTP interaction (`httpx`) is modelled by `UpOutcome`:
  an exception while opening the stream, or an opened response with a
  status code, a list of received lines, and an optional exception raised
  while iterating the lines.  Parsed lines are modelled structurally
  (`UpLine`): SSE `data:` framing and JSON decoding are abstracted into
  whether a line parses to an event object and what its `type` tag is.
* The `database` module is not part of the sources; its operations are
  recorded as opaque `StoreOp`s by the generators, and their semantics
  (`applyOp`, `db_get_case_full`) are modelled from the spec (§4.5, §6).
  Store operations are modelled as infallible.
-/

/-- One reasoning item of the mock result object (a dict with
`reasoning` and `references` keys in the source). -/
structure ReasoningItem where
  reasoning : String
  references : List String
deriving DecidableEq, Repr

/-- The structured result payload carried by upstream `result` events and
by the mock result.  Fields the relay reads or the mock writes are listed;
`Option` models a possibly-absent JSON key (the source uses
`.get(key, default)` where absence matters). -/
structure ResultPayload where
  case_description : Option String := none
  predictions : List String := []
  warning_diagnosis : List String := []
  reasoning : List ReasoningItem := []
  overall_reasoning : Option String := none
  management : Option String := none
  actions : List String := []
deriving DecidableEq, Repr

/-- A client-facing relay event (JSON objects with a type tag yielded
by the generators). -/
inductive RelayEvent where
  | case_created (case_id : String)
  | progress (message : String)
  | result (data : ResultPayload)
  | error (message : String)
deriving DecidableEq, Repr

/-- The message payload dict passed to `database.add_message`. -/
structure MessageData where
  from_id : String
  message_type : String
  text : String
  payload_json : Option ResultPayload := none
  stage : String
deriving DecidableEq, Repr

/-- A Case Store operation invoked by the relay (calls into the
`database` module, recorded with their arguments in program order). -/
inductive StoreOp where
  | create_case (case_id : String) (user_id : String) (title : String)
  | update_case_status (case_id : String) (status : String)
  | add_message (case_id : String) (user_id : String) (message_id : String)
      (message_data : MessageData)
deriving DecidableEq, Repr

/-- One step of a chat interaction: either an event yielded to the client
or a store operation, in program order. -/
inductive Item where
  | evt (e : RelayEvent)
  | op (o : StoreOp)
deriving DecidableEq, Repr

/-- An upstream event object: a JSON object with a `type` tag, as parsed
from a `data: <json>` line.  The relay loop only has branches for
`progress` and `result`; all other tags (including `error`) fall through. -/
inductive UpEvent where
  | progress (message : String)
  | result (data : ResultPayload)
  | errorEvt (message : String)
  | other (tag : String)
deriving DecidableEq, Repr

/-- One line received from the upstream stream. `noData` is a line not
starting with `data: `; `badJson` is a `data: ` line whose payload fails
JSON decoding (skipped by the `except json.JSONDecodeError` handler). -/
inductive UpLine where
  | noData (raw : String)
  | badJson (raw : String)
  | event (e : UpEvent)
deriving DecidableEq, Repr

/-- An `httpx` exception reaching the `except` clauses of the generator:
`httpx.TimeoutException`, `httpx.RequestError` (with its string form), or
any other `Exception` (with its string form). -/
inductive NetErr where
  | timeout
  | requestError (msg : String)
  | internal (msg : String)
deriving DecidableEq, Repr

/-- The outcome of the upstream HTTP call: an exception while opening the
streaming request, or an opened response with its status code, the lines
delivered before the stream ends, and `some e` when iterating raises `e`
after those lines (`none` = clean end of stream). -/
inductive UpOutcome where
  | openFail (e : NetErr)
  | opened (status : Nat) (lines : List UpLine) (tail : Option NetErr)
deriving DecidableEq, Repr

/-- The `message_data` dict built for the inbound user message
(identical in `event_generator` and `mock_event_generator`). -/
def userMessageData (user_id case_text : String) : MessageData :=
  { from_id := user_id, message_type := "USER", text := case_text,
    payload_json := none, stage := "final" }

/-- The `message_data` dict built for the agent response message:
text is `result.get("overall_reasoning", "")`, payload is the full
result object (identical in both generators). -/
def agentMessageData (result_data : ResultPayload) : MessageData :=
  { from_id := "agent", message_type := "AGENT",
    text := result_data.overall_reasoning.getD "",
    payload_json := some result_data, stage := "final" }

/-- The trace prefix shared by both generators: when authenticated,
create the Case, set it `PROCESSING`, persist the user message; then
yield the `case_created` event.  The title is `case_text[:100]`. -/
def preamble (user_id : Option String) (case_text case_id mid_user : String) :
    List Item :=
  match user_id with
  | some u =>
      [Item.op (StoreOp.create_case case_id u (case_text.take 100)),
       Item.op (StoreOp.update_case_status case_id "PROCESSING"),
       Item.op (StoreOp.add_message case_id u mid_user (userMessageData u case_text)),
       Item.evt (RelayEvent.case_created case_id)]
  | none => [Item.evt (RelayEvent.case_created case_id)]

/-- The error message of each `except` clause of `event_generator`. -/
def netErrMsg : NetErr → String
  | NetErr.timeout => "Agent service timeout"
  | NetErr.requestError s => "Agent service unreachable: " ++ s
  | NetErr.internal s => "Internal error: " ++ s

/-- The trace suffix of the `except` handlers: yield the synthesized
`error` event, then set the Case status to `ERROR` only if authenticated. -/
def errTail (user_id : Option String) (case_id : String) (e : NetErr) : List Item :=
  Item.evt (RelayEvent.error (netErrMsg e)) ::
    (match user_id with
     | some _ => [Item.op (StoreOp.update_case_status case_id "ERROR")]
     | none => [])

/-- The trace suffix of the `response.status_code != 200` branch: yield
the error event, then call `update_case_status` — in the source this call
is NOT guarded by `if user_id` (unlike every other handler). -/
def nonOkTail (case_id : String) (status : Nat) : List Item :=
  [Item.evt (RelayEvent.error ("Agent service error: " ++ toString status)),
   Item.op (StoreOp.update_case_status case_id "ERROR")]

/-- The body of the `async for line in response.aiter_lines()` loop of
`event_generator`, over the received lines.  `n` is the index of the next
uuid draw (an agent-message id is drawn per `result` event, only when
authenticated).  `progress` events are forwarded verbatim; `result` events
trigger persistence (if authenticated) and are forwarded; every other
line — non-`data:` lines, bad JSON, and events with any other `type` tag,
including `error` — is skipped. -/
def streamItems (user_id : Option String) (case_id : String)
    (fresh : Nat → String) : List UpLine → Nat → List Item
  | [], _ => []
  | UpLine.noData _ :: rest, n => streamItems user_id case_id fresh rest n
  | UpLine.badJson _ :: rest, n => streamItems user_id case_id fresh rest n
  | UpLine.event (UpEvent.progress m) :: rest, n =>
      Item.evt (RelayEvent.progress m) :: streamItems user_id case_id fresh rest n
  | UpLine.event (UpEvent.result d) :: rest, n =>
      (match user_id with
       | some u =>
          Item.op (StoreOp.add_message case_id u (fresh n) (agentMessageData d)) ::
          Item.op (StoreOp.update_case_status case_id "COMPLETED") ::
          Item.evt (RelayEvent.result d) ::
          streamItems user_id case_id fresh rest (n + 1)
       | none =>
          Item.evt (RelayEvent.result d) ::
          streamItems user_id case_id fresh rest n)
  | UpLine.event (UpEvent.errorEvt _) :: rest, n =>
      streamItems user_id case_id fresh rest n
  | UpLine.event (UpEvent.other _) :: rest, n =>
      streamItems user_id case_id fresh rest n

/-- The real `event_generator` of `POST /api/chat` (src/api/server.py,
lines 203–309), as a trace: uuid draws `fresh 0` (case id) and `fresh 1`
(user-message id); preamble; then, depending on the upstream outcome:
an `except`-handler tail, the non-200 branch, or the line loop followed by
an `except`-handler tail when iteration raised. -/
def event_generator (user_id : Option String) (case_text : String)
    (fresh : Nat → String) (up : UpOutcome) : List Item :=
  let case_id := fresh 0
  let mid_user := fresh 1
  preamble user_id case_text case_id mid_user ++
    match up with
    | UpOutcome.openFail e => errTail user_id case_id e
    | UpOutcome.opened status lines tail =>
        if status ≠ 200 then nonOkTail case_id status
        else
          streamItems user_id case_id fresh lines 2 ++
            (match tail with
             | none => []
             | some e => errTail user_id case_id e)

def progress_stages : List String := [
  "Analyzing clinical presentation...",
  "Searching literature about [<diagnosis_1>]...",
  "Searching literature about [<diagnosis_2>]...",
  "Identifying key symptoms...",
  "Reviewing differential diagnoses...",
  "Evaluating evidence...",
  "Generating recommendations...",
  "Finalizing analysis..."]

/-- The `mock_result` dict built by `mock_event_generator`
(src/api/server.py, lines 107–146). -/
def mock_result (case_text : String) : ResultPayload where
  case_description := some case_text
  predictions := ["Infectious Conditions",
    "Cervical spine hardware failure with associated prevertebral soft tissue injury",
    "Contained esophageal microperforation with secondary prevertebral abscess"]
  warning_diagnosis := ["Retropharyngeal abscess",
    "Epiglottitis",
    "Peritonsillar abscess"]
  reasoning := [
    { reasoning := "The patient\x27s presentation of odynophagia, anterior neck tenderness, fever, leukocytosis, and elevated lactate, combined with imaging findings of a rim-enhancing prevertebral fluid collection and hardware displacement, strongly supports a diagnosis of a prevertebral abscess related to cervical spine hardware infection. The presence of gas locules and inflammatory changes extending into adjacent spaces further confirms deep neck infection. Surgical drainage and culture results identifying oral flora organisms are consistent with hardware-associated infectious complications requiring multidisciplinary management.",
      references := ["A complex presentation of complicated secondary syphilis with ulcerated lesion progression."] },
    { reasoning := "The patient\u2019s presentation of odynophagia, anterior neck tenderness, fever, and elevated inflammatory markers alongside imaging revealing prevertebral fluid collection and hardware displacement strongly supports cervical spine hardware failure complicated by a prevertebral abscess. The history of anterior cervical fusion and imaging findings of screw retraction with associated soft tissue inflammation are consistent with hardware-related soft tissue injury and infection, as described in similar cases of late hardware complications leading to prevertebral abscess formation and the need for surgical intervention [2,3,5].",
      references := ["Esophagopharyngeal perforation and prevertebral abscess after anterior cervical discectomy and fusion: a case report.",
    "The new onset of dysphagia four years after anterior cervical discectomy and fusion: Case report and literature review.",
    "Late prevertebral abscess following anterior cervical plating: the missing screw."] },
    { reasoning := "The patient\x27s presentation of odynophagia, anterior neck tenderness, fever, and leukocytosis alongside imaging revealing a rim-enhancing prevertebral fluid collection with gas locules and hardware displacement strongly suggests a deep neck infection secondary to a contained esophageal microperforation. The absence of vertebral destruction or spinal canal involvement on MRI and negative esophagram for leak indicate a localized perforation leading to abscess formation. Surgical findings of soft tissue defect and polymicrobial cultures further support this diagnosis, consistent with complications from prior cervical spine hardware.",
      references := [] }]
  overall_reasoning := some "This patient\x27s presentation of odynophagia, anterior neck tenderness, fever, leukocytosis, and elevated lactate, combined with imaging findings of a rim-enhancing prevertebral fluid collection with gas locules and cervical hardware displacement, strongly supports a diagnosis of a prevertebral abscess related to cervical spine hardware infection and failure. The history of anterior cervical fusion and imaging evidence of screw retraction with surrounding inflammatory changes confirm hardware failure complicated by prevertebral soft tissue injury and infection, necessitating surgical intervention. Although a contained esophageal microperforation with secondary prevertebral abscess is plausible given the soft tissue defect and polymicrobial cultures, the absence of direct evidence of esophageal perforation on nasopharyngeal scope and esophagram weakens this diagnosis. The broad category of infectious conditions is well supported by clinical, laboratory, imaging, surgical, and microbiological findings but is less specific than the hardware-related abscess diagnosis. Importantly, warning diagnoses such as retropharyngeal abscess, epiglottitis, and peritonsillar abscess are less likely given the lack of posterior oropharyngeal abnormalities, airway compromise, or typical clinical features, and imaging findings localize the infection to the prevertebral space rather than these other deep neck spaces. Overall, the constellation of clinical and imaging findings, surgical observations, and culture results confirm a deep neck infection secondary to cervical spine hardware failure with associated prevertebral abscess formation, with a possible but unconfirmed esophageal microperforation as the source.\nReferences: \n[1] Esophagopharyngeal perforation and prevertebral abscess after anterior cervical discectomy and fusion: a case report.\n [2] The new onset of dysphagia four years after anterior cervical discectomy and fusion: Case report and literature review.\n [3] Late prevertebral abscess following anterior cervical plating: the missing screw.\n [4] A complex presentation of complicated secondary syphilis with ulcerated lesion progression."
  management := some "This patient requires urgent multidisciplinary management addressing the infected cervical spine hardware with associated prevertebral abscess and possible contained esophageal microperforation. Initial steps include close monitoring of vital signs and neurological status, broad-spectrum intravenous antibiotics tailored to culture results, and supportive care including analgesia and glycemic control. Imaging with contrast-enhanced CT and MRI should be used to delineate the extent of infection, hardware displacement, and to exclude vertebral or spinal canal involvement. Surgical intervention is mandatory, involving irrigation and drainage of the prevertebral abscess, removal of the infected cervical hardware, and repair of any soft tissue defects identified intraoperatively. Intraoperative cultures must be obtained to guide antimicrobial therapy. Esophageal evaluation with fluoroscopic esophagram and esophagogastroduodenoscopy (EGD) should be performed to detect and monitor any microperforation; repeat imaging and endoscopy may be necessary. Postoperatively, the patient should be admitted to ICU for close monitoring, continued intravenous antibiotics via a peripherally inserted central catheter (PICC), and multidisciplinary follow-up with neurosurgery, otolaryngology, infectious disease, and gastroenterology. Serial clinical and imaging assessments are essential to ensure resolution of infection and to detect any complications early."
  actions := ["1. Obtain detailed history focusing on symptom onset, progression, and risk factors for deep neck infections. 2. Perform thorough physical examination emphasizing neck tenderness, swelling, airway patency, and neurological status. 3. Repeat vital signs monitoring to detect fever and hemodynamic changes. 4. Order laboratory tests including complete blood count with differential, inflammatory markers (CRP, ESR), blood cultures, and serum lactate. 5. Acquire imaging studies: start with soft tissue neck radiograph to assess prevertebral soft tissue swelling and hardware position. 6. Perform contrast-enhanced CT scan of the neck to identify fluid collections, abscess formation, gas locules, hardware displacement, and extent of infection. 7. Conduct MRI of the cervical spine to evaluate soft tissue involvement, vertebral body integrity, and spinal canal status. 8. Utilize bedside nasopharyngoscopy to exclude mucosal lesions or pharyngeal sources of infection. 9. Perform fluoroscopic esophagram to rule out esophageal perforation or leak. 10. Obtain surgical exploration with irrigation and drainage of the fluid collection and removal of infected hardware if indicated. 11. Collect intraoperative cultures and send for aerobic, anaerobic, and fungal cultures to identify causative organisms. 12. Correlate clinical, laboratory, imaging, surgical, and microbiological findings to confirm diagnosis of prevertebral abscess related to hardware infection.",
    "1. Obtain detailed comparison of current and prior cervical spine imaging (X-ray, CT) to assess hardware position, loosening, or breakage. 2. Perform contrast-enhanced CT of the neck to identify fluid collections, inflammatory changes, and gas locules around hardware. 3. Conduct MRI of the cervical spine to evaluate soft tissue involvement, vertebral body integrity, and spinal canal status. 4. Perform bedside nasopharyngeal endoscopy to exclude mucosal lesions or fistula. 5. Conduct fluoroscopic esophagram to rule out esophageal perforation or leak. 6. Obtain intraoperative assessment during hardware removal to directly visualize hardware integrity and soft tissue defects. 7. Collect and culture fluid/tissue samples from the prevertebral space to identify infectious organisms. 8. Correlate clinical signs (fever, elevated WBC, rigors, neck tenderness) with imaging and surgical findings to confirm diagnosis of hardware failure with associated prevertebral soft tissue injury.",
    "1. Perform a dedicated esophagogastroduodenoscopy (EGD) to directly visualize the esophageal mucosa for microperforations or defects. 2. Repeat a contrast esophagram using water-soluble contrast under fluoroscopy to detect subtle or intermittent esophageal leaks. 3. Obtain an esophageal CT with oral contrast to identify extravasation of contrast material indicating perforation. 4. During surgical exploration, carefully inspect and document any esophageal wall defects or perforations, with biopsy or culture of suspicious tissue if feasible. 5. Consider endoscopic ultrasound (EUS) to assess esophageal wall integrity and adjacent soft tissue involvement. 6. Correlate intraoperative findings with microbiology cultures to identify organisms typical of esophageal flora. 7. Monitor serial imaging post-intervention to confirm resolution or persistence of any esophageal leak or abscess."]

/-- The `mock_event_generator` of src/api/server.py (lines 59–175), as a
trace.  Its persistence preamble is literally identical to the real
generator, so `preamble` is shared.  After the fixed progress stages
(each preceded by an `asyncio.sleep`, not modelled), it persists the agent
message and completion (if authenticated) and yields the result.  Its
`except` clause can only fire on store failures, which are modelled as
infallible, so it is not reachable in this model. -/
def mock_event_generator (case_id case_text : String) (user_id : Option String)
    (mid_user mid_agent : String) : List Item :=
  preamble user_id case_text case_id mid_user ++
  progress_stages.map (fun s => Item.evt (RelayEvent.progress s)) ++
  (match user_id with
   | some u =>
      [Item.op (StoreOp.add_message case_id u mid_agent
         (agentMessageData (mock_result case_text))),
       Item.op (StoreOp.update_case_status case_id "COMPLETED")]
   | none => []) ++
  [Item.evt (RelayEvent.result (mock_result case_text))]

/-- The `POST /api/chat` handler: with `USE_MOCK_CHAT` it draws a case id
and runs the mock generator (which draws the two message ids), otherwise
it runs `event_generator` (which draws ids from the same supply). -/
def chat (useMock : Bool) (user_id : Option String) (case_text : String)
    (fresh : Nat → String) (up : UpOutcome) : List Item :=
  if useMock then mock_event_generator (fresh 0) case_text user_id (fresh 1) (fresh 2)
  else event_generator user_id case_text fresh up

/-- The client-facing events of a trace, in order. -/
def eventsOf (t : List Item) : List RelayEvent :=
  t.filterMap fun it =>
    match it with
    | Item.evt e => some e
    | Item.op _ => none

/-- The store operations of a trace, in order. -/
def opsOf (t : List Item) : List StoreOp :=
  t.filterMap fun it =>
    match it with
    | Item.evt _ => none
    | Item.op o => some o

def isCaseCreatedB : RelayEvent → Bool
  | RelayEvent.case_created _ => true
  | _ => false

def isProgressB : RelayEvent → Bool
  | RelayEvent.progress _ => true
  | _ => false

def isErrorB : RelayEvent → Bool
  | RelayEvent.error _ => true
  | _ => false

/-- A terminal event in the sense of the RelayEvent contract. -/
def isTerminalB : RelayEvent → Bool
  | RelayEvent.result _ => true
  | RelayEvent.error _ => true
  | _ => false

/-- The payloads of the `result`-tagged events among the upstream lines. -/
def resultsOf (lines : List UpLine) : List ResultPayload :=
  lines.filterMap fun l =>
    match l with
    | UpLine.event (UpEvent.result d) => some d
    | _ => none

/-- The messages of the `progress`-tagged events among the upstream lines. -/
def progressOf (lines : List UpLine) : List String :=
  lines.filterMap fun l =>
    match l with
    | UpLine.event (UpEvent.progress m) => some m
    | _ => none

/-- Whether an upstream line is a `progress`-tagged event. -/
def isProgressLine : UpLine → Bool
  | UpLine.event (UpEvent.progress _) => true
  | _ => false

/-- A persisted Case record (spec §6: `{id, owner_id, title, status, created_at}`;
the timestamp is not modelled). -/
structure StoredCase where
  id : String
  owner_id : String
  title : String
  status : String
deriving DecidableEq, Repr

/-- A persisted Message record (spec §6:
`{id, case_id, sender_id, role, text, payload_json?, stage}`; role, text,
payload and stage live inside `data`). -/
structure StoredMessage where
  id : String
  case_id : String
  sender_id : String
  data : MessageData
deriving DecidableEq, Repr

/-- The Case Store state: cases and append-only messages. -/
structure Store where
  cases : List StoredCase
  messages : List StoredMessage
deriving DecidableEq, Repr

def emptyStore : Store := { cases := [], messages := [] }

/-- Modelled from the spec: the `database` module is not under src/, so
the semantics of `createCase` / `setCaseStatus` / `appendMessage`
(spec §4.5) are modelled: creation appends a Case in its initial
`CREATED` status (§3 lifecycle), a status update rewrites the status of
the matching case (no-op when absent), and appending a message preserves
insertion order. -/
def applyOp (st : Store) : StoreOp → Store
  | StoreOp.create_case cid uid title =>
      { st with cases := st.cases ++ [{ id := cid, owner_id := uid,
                                        title := title, status := "CREATED" }] }
  | StoreOp.update_case_status cid s =>
      { st with cases := st.cases.map fun c =>
          if c.id == cid then { c with status := s } else c }
  | StoreOp.add_message cid uid mid d =>
      { st with messages := st.messages ++ [{ id := mid, case_id := cid,
                                              sender_id := uid, data := d }] }

/-- The Case Store state after running the operations of a trace from `st`. -/
def runStore (st : Store) (t : List Item) : Store :=
  (opsOf t).foldl applyOp st

/-- Modelled from the spec: `database.get_case_full` is not under src/;
spec §4.5 — `getCaseWithMessages(caseId, ownerId) → record or not-found`,
owner-scoped: not-found when the case is absent or owned by a different
owner, otherwise the case with its messages in insertion order. -/
def db_get_case_full (st : Store) (case_id user_id : String) :
    Option (StoredCase × List StoredMessage) :=
  match st.cases.find? (fun c => c.id == case_id && c.owner_id == user_id) with
  | none => none
  | some c => some (c, st.messages.filter (fun m => m.case_id == case_id))

/-- An HTTP error response (`fastapi.HTTPException`). -/
structure HTTPError where
  status_code : Nat
  detail : String
deriving DecidableEq, Repr

/-- The `GET /api/cases/{case_id}/full` handler (src/api/server.py,
lines 328–346): 404 when the owner-scoped lookup returns nothing. -/
def get_case_full (st : Store) (case_id user_id : String) :
    Except HTTPError (StoredCase × List StoredMessage) :=
  match db_get_case_full st case_id user_id with
  | none =>
      Except.error
        { status_code := 404,
          detail := "Case not found or you don\x27t have access to this case" }
  | some case_data => Except.ok case_data

/-- A bearer token, classified by how `jwt.decode` (PyJWT, HS256,
audience "authenticated") disposes of it: valid with subject claim `sub`,
expired, malformed, wrong signature, or wrong audience. -/
inductive Token where
  | valid (sub : String)
  | expired
  | malformed
  | wrongSignature
  | wrongAudience
deriving DecidableEq, Repr

/-- The decoded JWT payload as used by the handlers (only `sub` is read). -/
structure JwtPayload where
  sub : String
deriving DecidableEq, Repr

/-- The outcome of `jwt.decode`, modelled from the PyJWT library:
a valid token yields its payload; an expired token raises
`ExpiredSignatureError`; a malformed token, a wrong signature and a wrong
audience all raise (subclasses of) `InvalidTokenError`. -/
inductive JwtOutcome where
  | ok (payload : JwtPayload)
  | expiredErr
  | invalidErr
deriving DecidableEq, Repr

def jwt_decode : Token → JwtOutcome
  | Token.valid s => JwtOutcome.ok { sub := s }
  | Token.expired => JwtOutcome.expiredErr
  | Token.malformed => JwtOutcome.invalidErr
  | Token.wrongSignature => JwtOutcome.invalidErr
  | Token.wrongAudience => JwtOutcome.invalidErr

/-- `verify_jwt_token` (src/api/auth.py, lines 19–44): decode the token;
`ExpiredSignatureError` becomes HTTP 401 "Token has expired",
`InvalidTokenError` becomes HTTP 401 "Invalid token".  (The final
`except Exception` clause, also a 401, has no reachable case in this
token model.) -/
def verify_jwt_token (token : Token) : Except HTTPError JwtPayload :=
  match jwt_decode token with
  | JwtOutcome.ok payload => Except.ok payload
  | JwtOutcome.expiredErr =>
      Except.error { status_code := 401, detail := "Token has expired" }
  | JwtOutcome.invalidErr =>
      Except.error { status_code := 401, detail := "Invalid token" }

/-- The `Authorization` header of a request: absent, present without the
`Bearer ` scheme, or a bearer token. -/
inductive AuthHeader where
  | missing
  | nonBearer (raw : String)
  | bearer (tok : Token)
deriving DecidableEq, Repr

/-- Modelled from the FastAPI library: `HTTPBearer()` with its default
`auto_error=True` rejects a missing `Authorization` header with HTTP 403
"Not authenticated" and a non-Bearer scheme with HTTP 403
"Invalid authentication credentials"; otherwise it hands the credentials
to the dependent. -/
def httpBearer : AuthHeader → Except HTTPError Token
  | AuthHeader.missing =>
      Except.error { status_code := 403, detail := "Not authenticated" }
  | AuthHeader.nonBearer _ =>
      Except.error
        { status_code := 403, detail := "Invalid authentication credentials" }
  | AuthHeader.bearer tok => Except.ok tok

/-- `get_current_user` (src/api/auth.py, lines 47–68): the `HTTPBearer`
security dependency extracts the credentials, then `verify_jwt_token`
returns the payload. -/
def get_current_user (h : AuthHeader) : Except HTTPError JwtPayload := do
  let token ← httpBearer h
  let payload ← verify_jwt_token token
  pure payload

/-- `get_user_id` (src/api/auth.py, lines 71–84): the `sub` claim of the
payload of the current user. -/
def get_user_id (h : AuthHeader) : Except HTTPError String := do
  let user ← get_current_user h
  pure user.sub

/-- `get_optional_user_id` (src/api/auth.py, lines 87–126): no header or
no `Bearer ` scheme yields `none`; otherwise verify the token, and catch
any `HTTPException` (or other error) as `none` — anonymous. -/
def get_optional_user_id (h : AuthHeader) : Option String :=
  match h with
  | AuthHeader.missing => none
  | AuthHeader.nonBearer _ => none
  | AuthHeader.bearer tok =>
      match verify_jwt_token tok with
      | Except.ok payload => some payload.sub
      | Except.error _ => none

/-! ## Helper lemmas about the relay traces -/

theorem eventsOf_append (a b : List Item) :
    eventsOf (a ++ b) = eventsOf a ++ eventsOf b := by
  simp [eventsOf, List.filterMap_append]

theorem opsOf_append (a b : List Item) :
    opsOf (a ++ b) = opsOf a ++ opsOf b := by
  simp [opsOf, List.filterMap_append]

theorem eventsOf_nil : eventsOf [] = [] := rfl

theorem eventsOf_cons_evt (e : RelayEvent) (t : List Item) :
    eventsOf (Item.evt e :: t) = e :: eventsOf t := rfl

theorem eventsOf_cons_op (o : StoreOp) (t : List Item) :
    eventsOf (Item.op o :: t) = eventsOf t := rfl

theorem opsOf_nil : opsOf [] = [] := rfl

theorem opsOf_cons_evt (e : RelayEvent) (t : List Item) :
    opsOf (Item.evt e :: t) = opsOf t := rfl

theorem opsOf_cons_op (o : StoreOp) (t : List Item) :
    opsOf (Item.op o :: t) = o :: opsOf t := rfl

/-- The events produced by the upstream line loop, independent of
authentication and of the id supply: forwarded `progress` and `result`
events in order, everything else skipped. -/
def streamEvents : List UpLine → List RelayEvent
  | [] => []
  | UpLine.event (UpEvent.progress m) :: rest => RelayEvent.progress m :: streamEvents rest
  | UpLine.event (UpEvent.result d) :: rest => RelayEvent.result d :: streamEvents rest
  | UpLine.noData _ :: rest => streamEvents rest
  | UpLine.badJson _ :: rest => streamEvents rest
  | UpLine.event (UpEvent.errorEvt _) :: rest => streamEvents rest
  | UpLine.event (UpEvent.other _) :: rest => streamEvents rest

theorem eventsOf_streamItems (user_id : Option String) (case_id : String)
    (fresh : Nat → String) (lines : List UpLine) (n : Nat) :
    eventsOf (streamItems user_id case_id fresh lines n) = streamEvents lines := by
  induction lines generalizing n with
  | nil => simp [streamItems, streamEvents, eventsOf_nil]
  | cons l rest ih =>
      cases l with
      | noData r => simp [streamItems, streamEvents, ih]
      | badJson r => simp [streamItems, streamEvents, ih]
      | event e =>
          cases e with
          | progress m => simp [streamItems, streamEvents, eventsOf_cons_evt, ih]
          | result d =>
              cases user_id with
              | none => simp [streamItems, streamEvents, eventsOf_cons_evt, ih]
              | some u =>
                  simp [streamItems, streamEvents, eventsOf_cons_evt,
                        eventsOf_cons_op, ih]
          | errorEvt m => simp [streamItems, streamEvents, ih]
          | other t => simp [streamItems, streamEvents, ih]

theorem streamEvents_not_terminal_misc (lines : List UpLine) :
    ∀ e ∈ streamEvents lines, isCaseCreatedB e = false ∧ isErrorB e = false := by
  induction lines with
  | nil => simp [streamEvents]
  | cons l rest ih =>
      cases l with
      | noData r => simpa [streamEvents] using ih
      | badJson r => simpa [streamEvents] using ih
      | event e =>
          cases e with
          | progress m =>
              intro x hx
              simp [streamEvents] at hx
              rcases hx with hx | hx
              · simp [hx, isCaseCreatedB, isErrorB]
              · exact ih x hx
          | result d =>
              intro x hx
              simp [streamEvents] at hx
              rcases hx with hx | hx
              · simp [hx, isCaseCreatedB, isErrorB]
              · exact ih x hx
          | errorEvt m => simpa [streamEvents] using ih
          | other t => simpa [streamEvents] using ih

theorem eventsOf_preamble (user_id : Option String) (case_text case_id mid_user : String) :
    eventsOf (preamble user_id case_text case_id mid_user) =
      [RelayEvent.case_created case_id] := by
  cases user_id <;> simp [preamble, eventsOf]

theorem eventsOf_errTail (user_id : Option String) (case_id : String) (e : NetErr) :
    eventsOf (errTail user_id case_id e) = [RelayEvent.error (netErrMsg e)] := by
  cases user_id <;> simp [errTail, eventsOf]

theorem opsOf_preamble_none (case_text case_id mid_user : String) :
    opsOf (preamble none case_text case_id mid_user) = [] := by
  simp [preamble, opsOf]

theorem opsOf_preamble_some (u case_text case_id mid_user : String) :
    opsOf (preamble (some u) case_text case_id mid_user) =
      [StoreOp.create_case case_id u (case_text.take 100),
       StoreOp.update_case_status case_id "PROCESSING",
       StoreOp.add_message case_id u mid_user (userMessageData u case_text)] := by
  simp [preamble, opsOf]

theorem opsOf_errTail_none (case_id : String) (e : NetErr) :
    opsOf (errTail none case_id e) = [] := by
  simp [errTail, opsOf]

theorem opsOf_errTail_some (u case_id : String) (e : NetErr) :
    opsOf (errTail (some u) case_id e) =
      [StoreOp.update_case_status case_id "ERROR"] := by
  simp [errTail, opsOf]

theorem opsOf_streamItems_none (case_id : String) (fresh : Nat → String)
    (lines : List UpLine) (n : Nat) :
    opsOf (streamItems none case_id fresh lines n) = [] := by
  induction lines generalizing n with
  | nil => simp [streamItems, opsOf_nil]
  | cons l rest ih =>
      cases l with
      | noData r => simpa [streamItems] using ih n
      | badJson r => simpa [streamItems] using ih n
      | event e =>
          cases e with
          | progress m => simpa [streamItems, opsOf_cons_evt] using ih n
          | result d => simpa [streamItems, opsOf_cons_evt] using ih n
          | errorEvt m => simpa [streamItems] using ih n
          | other t => simpa [streamItems] using ih n

/-- The store operations an authenticated line loop performs, as a
function of the result payloads received: per result, persist the agent
message under a freshly drawn id and mark the case `COMPLETED`. -/
def agentOps (u case_id : String) (fresh : Nat → String) :
    List ResultPayload → Nat → List StoreOp
  | [], _ => []
  | d :: rest, n =>
      StoreOp.add_message case_id u (fresh n) (agentMessageData d) ::
      StoreOp.update_case_status case_id "COMPLETED" ::
      agentOps u case_id fresh rest (n + 1)

theorem opsOf_streamItems_some (u case_id : String) (fresh : Nat → String)
    (lines : List UpLine) (n : Nat) :
    opsOf (streamItems (some u) case_id fresh lines n) =
      agentOps u case_id fresh (resultsOf lines) n := by
  induction lines generalizing n with
  | nil => simp [streamItems, opsOf_nil, resultsOf, agentOps]
  | cons l rest ih =>
      cases l with
      | noData r => simpa [streamItems, resultsOf] using ih n
      | badJson r => simpa [streamItems, resultsOf] using ih n
      | event e =>
          cases e with
          | progress m => simpa [streamItems, opsOf_cons_evt, resultsOf] using ih n
          | result d =>
              simp [streamItems, opsOf_cons_evt, opsOf_cons_op, resultsOf, agentOps]
              simpa [resultsOf] using ih (n + 1)
          | errorEvt m => simpa [streamItems, resultsOf] using ih n
          | other t => simpa [streamItems, resultsOf] using ih n

theorem streamItems_of_no_result (user_id : Option String) (case_id : String)
    (fresh : Nat → String) (lines : List UpLine) (n : Nat)
    (h : resultsOf lines = []) :
    streamItems user_id case_id fresh lines n =
      (progressOf lines).map (fun m => Item.evt (RelayEvent.progress m)) := by
  induction lines generalizing n with
  | nil => simp [streamItems, progressOf]
  | cons l rest ih =>
      cases l with
      | noData r =>
          simp [resultsOf] at h
          simpa [streamItems, progressOf] using ih n (by simpa [resultsOf] using h)
      | badJson r =>
          simp [resultsOf] at h
          simpa [streamItems, progressOf] using ih n (by simpa [resultsOf] using h)
      | event e =>
          cases e with
          | progress m =>
              simp [resultsOf] at h
              simpa [streamItems, progressOf] using ih n (by simpa [resultsOf] using h)
          | result d => simp [resultsOf] at h
          | errorEvt m =>
              simp [resultsOf] at h
              simpa [streamItems, progressOf] using ih n (by simpa [resultsOf] using h)
          | other t =>
              simp [resultsOf] at h
              simpa [streamItems, progressOf] using ih n (by simpa [resultsOf] using h)

theorem eventsOf_map_progress (L : List String) :
    eventsOf (L.map (fun s => Item.evt (RelayEvent.progress s))) =
      L.map RelayEvent.progress := by
  induction L with
  | nil => rfl
  | cons a t ih => simp [eventsOf_cons_evt, ih]

theorem eventsOf_nonOkTail (case_id : String) (status : Nat) :
    eventsOf (nonOkTail case_id status) =
      [RelayEvent.error ("Agent service error: " ++ toString status)] := by
  simp [nonOkTail, eventsOf]

theorem opsOf_nonOkTail (case_id : String) (status : Nat) :
    opsOf (nonOkTail case_id status) =
      [StoreOp.update_case_status case_id "ERROR"] := by
  simp [nonOkTail, opsOf]

theorem eventsOf_mock (case_id case_text : String) (user_id : Option String)
    (mid_user mid_agent : String) :
    eventsOf (mock_event_generator case_id case_text user_id mid_user mid_agent) =
      RelayEvent.case_created case_id ::
        (progress_stages.map RelayEvent.progress ++
          [RelayEvent.result (mock_result case_text)]) := by
  cases user_id <;>
    simp [mock_event_generator, eventsOf_append, eventsOf_preamble,
          eventsOf_map_progress, eventsOf_nil, eventsOf_cons_evt, eventsOf_cons_op]

/-- The uuid supply used for concrete evaluations. -/
def freshDemo : Nat → String := fun n => toString n

/-- C1 (counterexample): the claimed terminal-event discipline fails on
the real `event_generator`.  With an upstream stream delivering
`result, progress, result`, the relay forwards everything and keeps
reading: two terminal events are emitted and a progress event follows the
first of them.  With an upstream stream that ends without any event, no
terminal event is emitted at all. -/
theorem chat_terminal_discipline_cex :
    (eventsOf (chat false none "case" freshDemo
        (UpOutcome.opened 200
          [UpLine.event (UpEvent.result {}),
           UpLine.event (UpEvent.progress "p"),
           UpLine.event (UpEvent.result {})] none)) =
      [RelayEvent.case_created "0", RelayEvent.result {},
       RelayEvent.progress "p", RelayEvent.result {}]) ∧
    ((eventsOf (chat false none "case" freshDemo
        (UpOutcome.opened 200
          [UpLine.event (UpEvent.result {}),
           UpLine.event (UpEvent.progress "p"),
           UpLine.event (UpEvent.result {})] none))).countP isTerminalB = 2) ∧
    (eventsOf (chat false none "case" freshDemo (UpOutcome.opened 200 [] none)) =
      [RelayEvent.case_created "0"]) ∧
    ((eventsOf (chat false none "case" freshDemo
        (UpOutcome.opened 200 [] none))).countP isTerminalB = 0) := by
  decide

/-- C1 (amended): every emitted event sequence begins with exactly one
`case_created` event; any `error` event is unique and final; but the
sequence may end without any terminal event (upstream stream end without
a result), and `result` events do not terminate the stream (each upstream
result is forwarded, so several may appear).  Formally: the events are
`case_created` followed by a middle section free of `case_created` and
`error`, followed by either nothing or a single final `error` event. -/
theorem chat_event_sequence_shape (useMock : Bool) (user_id : Option String)
    (case_text : String) (fresh : Nat → String) (up : UpOutcome) :
    ∃ mid tl,
      eventsOf (chat useMock user_id case_text fresh up) =
        RelayEvent.case_created (fresh 0) :: (mid ++ tl) ∧
      (∀ e ∈ mid, isCaseCreatedB e = false ∧ isErrorB e = false) ∧
      (tl = [] ∨ ∃ m, tl = [RelayEvent.error m]) := by
  cases useMock with
  | true =>
      refine ⟨progress_stages.map RelayEvent.progress ++
        [RelayEvent.result (mock_result case_text)], [], ?_, ?_, Or.inl rfl⟩
      · simp [chat, eventsOf_mock]
      · intro e he
        simp at he
        rcases he with ⟨s, _, rfl⟩ | rfl <;>
          simp [isCaseCreatedB, isErrorB]
  | false =>
      cases up with
      | openFail e =>
          refine ⟨[], [RelayEvent.error (netErrMsg e)], ?_, by simp, Or.inr ⟨_, rfl⟩⟩
          simp [chat, event_generator, eventsOf_append, eventsOf_preamble,
                eventsOf_errTail]
      | opened status lines tail =>
          by_cases hs : status = 200
          · subst hs
            cases tail with
            | none =>
                refine ⟨streamEvents lines, [], ?_, streamEvents_not_terminal_misc lines, Or.inl rfl⟩
                simp [chat, event_generator, eventsOf_append, eventsOf_preamble,
                      eventsOf_streamItems, eventsOf_nil]
            | some e =>
                refine ⟨streamEvents lines, [RelayEvent.error (netErrMsg e)], ?_,
                  streamEvents_not_terminal_misc lines, Or.inr ⟨_, rfl⟩⟩
                simp [chat, event_generator, eventsOf_append, eventsOf_preamble,
                      eventsOf_streamItems, eventsOf_errTail]
          · refine ⟨[], [RelayEvent.error ("Agent service error: " ++ toString status)],
              ?_, by simp, Or.inr ⟨_, rfl⟩⟩
            simp [chat, event_generator, eventsOf_append, eventsOf_preamble,
                  eventsOf_nonOkTail, hs]

/-- C2: evaluation at the failing input.  For an anonymous caller whose
upstream call returns a non-200 status, the relay nevertheless invokes
`update_case_status(case_id, "ERROR")` — the one store call in
`event_generator` not guarded by `if user_id` — so the claim that no
Case Store operation is ever invoked for anonymous callers is violated
by the code at this input (all other anonymous paths invoke none). -/
theorem anonymous_nonOk_invokes_store :
    opsOf (chat false none "case" freshDemo (UpOutcome.opened 500 [] none)) =
      [StoreOp.update_case_status "0" "ERROR"] ∧
    opsOf (chat false none "case" freshDemo (UpOutcome.opened 500 [] none)) ≠ [] := by
  decide

theorem streamItems_errorEvt_middle (user_id : Option String) (case_id : String)
    (fresh : Nat → String) (pre post : List UpLine) (m : String) (n : Nat) :
    streamItems user_id case_id fresh
        (pre ++ UpLine.event (UpEvent.errorEvt m) :: post) n =
      streamItems user_id case_id fresh (pre ++ post) n := by
  induction pre generalizing n with
  | nil => simp [streamItems]
  | cons l rest ih =>
      cases l with
      | noData r => simp [streamItems, ih]
      | badJson r => simp [streamItems, ih]
      | event e =>
          cases e with
          | progress q => simp [streamItems, ih]
          | result d => cases user_id <;> simp [streamItems, ih]
          | errorEvt q => simp [streamItems, ih]
          | other t => simp [streamItems, ih]

set_option maxRecDepth 8192 in
/-- C3 (counterexample): an upstream event tagged `error` is NOT handled
as the claim states.  Authenticated caller, upstream delivers an `error`
event followed by a `progress` event: the relay forwards no `error`
event, keeps consuming the stream (the later progress event is
forwarded), and leaves the Case in `PROCESSING`, never `ERROR`. -/
theorem upstream_error_event_ignored_cex :
    (eventsOf (chat false (some "u1") "case" freshDemo
        (UpOutcome.opened 200
          [UpLine.event (UpEvent.errorEvt "boom"),
           UpLine.event (UpEvent.progress "next")] none)) =
      [RelayEvent.case_created "0", RelayEvent.progress "next"]) ∧
    (opsOf (chat false (some "u1") "case" freshDemo
        (UpOutcome.opened 200
          [UpLine.event (UpEvent.errorEvt "boom"),
           UpLine.event (UpEvent.progress "next")] none)) =
      [StoreOp.create_case "0" "u1" "case",
       StoreOp.update_case_status "0" "PROCESSING",
       StoreOp.add_message "0" "u1" "1" (userMessageData "u1" "case")]) := by
  decide

/-- C3 (amended): an upstream event tagged `error` is ignored exactly like
any tag other than `progress`/`result`: it is not forwarded, causes no
status change, and does not terminate the stream — deleting it from the
upstream stream leaves the whole interaction trace unchanged.  Moreover a
clean 200 stream never produces a client-facing `error` event at all:
synthesized `error` events arise only from a non-200 status, a timeout or
connection failure, or an internal fault. -/
theorem upstream_error_events_are_ignored :
    (∀ (user_id : Option String) (case_text : String) (fresh : Nat → String)
        (pre post : List UpLine) (m : String) (tail : Option NetErr),
      chat false user_id case_text fresh
          (UpOutcome.opened 200 (pre ++ UpLine.event (UpEvent.errorEvt m) :: post) tail) =
        chat false user_id case_text fresh (UpOutcome.opened 200 (pre ++ post) tail)) ∧
    (∀ (user_id : Option String) (case_text : String) (fresh : Nat → String)
        (lines : List UpLine),
      (eventsOf (chat false user_id case_text fresh
          (UpOutcome.opened 200 lines none))).countP isErrorB = 0) := by
  constructor
  · intro user_id case_text fresh pre post m tail
    simp [chat, event_generator, streamItems_errorEvt_middle]
  · intro user_id case_text fresh lines
    have h : eventsOf (chat false user_id case_text fresh
        (UpOutcome.opened 200 lines none)) =
        RelayEvent.case_created (fresh 0) :: streamEvents lines := by
      simp [chat, event_generator, eventsOf_append, eventsOf_preamble,
            eventsOf_streamItems, eventsOf_nil]
    rw [h, List.countP_cons]
    have h0 : List.countP isErrorB (streamEvents lines) = 0 := by
      rw [List.countP_eq_zero]
      intro e he
      have h2 := (streamEvents_not_terminal_misc lines e he).2
      simp [h2]
    simp [h0, isErrorB]

theorem opsOf_map_progress (L : List String) :
    opsOf (L.map (fun s => Item.evt (RelayEvent.progress s))) = [] := by
  induction L with
  | nil => rfl
  | cons a t ih => simp [opsOf_cons_evt, ih]

theorem opsOf_mock_some (case_id case_text : String) (u mid_user mid_agent : String) :
    opsOf (mock_event_generator case_id case_text (some u) mid_user mid_agent) =
      [StoreOp.create_case case_id u (case_text.take 100),
       StoreOp.update_case_status case_id "PROCESSING",
       StoreOp.add_message case_id u mid_user (userMessageData u case_text),
       StoreOp.add_message case_id u mid_agent (agentMessageData (mock_result case_text)),
       StoreOp.update_case_status case_id "COMPLETED"] := by
  simp [mock_event_generator, opsOf_append, opsOf_preamble_some,
        opsOf_map_progress, opsOf_nil, opsOf_cons_evt, opsOf_cons_op]

/-- The Case Store contents after a completed authenticated interaction:
exactly one case in status COMPLETED, and exactly two messages — the USER
message whose text is the submitted case text, then the AGENT message
whose text is the `overall_reasoning` field of `p` and whose structured
payload is `p` itself. -/
def completedStore (case_id u case_text mid_user mid_agent : String)
    (p : ResultPayload) : Store :=
  { cases := [{ id := case_id, owner_id := u, title := case_text.take 100,
                status := "COMPLETED" }],
    messages :=
      [{ id := mid_user, case_id := case_id, sender_id := u,
         data := userMessageData u case_text },
       { id := mid_agent, case_id := case_id, sender_id := u,
         data := agentMessageData p }] }

/-- C4: for an authenticated caller, an interaction whose upstream stream
completes delivering exactly one `result` event with payload `p` leaves
the store with exactly one Case in status COMPLETED and exactly two
Messages: the USER message with the submitted case text, and the AGENT
message whose text is the `overall_reasoning` field of `p` and whose
structured payload is the full result object (see `completedStore`).
The same holds in mock mode, with the mock result as payload. -/
theorem authenticated_result_persists_once (u case_text : String)
    (fresh : Nat → String) (lines : List UpLine) (p : ResultPayload)
    (h : resultsOf lines = [p]) :
    runStore emptyStore
        (chat false (some u) case_text fresh (UpOutcome.opened 200 lines none)) =
      completedStore (fresh 0) u case_text (fresh 1) (fresh 2) p ∧
    runStore emptyStore
        (chat true (some u) case_text fresh (UpOutcome.opened 200 lines none)) =
      completedStore (fresh 0) u case_text (fresh 1) (fresh 2)
        (mock_result case_text) := by
  constructor
  · have hops : opsOf (chat false (some u) case_text fresh
        (UpOutcome.opened 200 lines none)) =
        [StoreOp.create_case (fresh 0) u (case_text.take 100),
         StoreOp.update_case_status (fresh 0) "PROCESSING",
         StoreOp.add_message (fresh 0) u (fresh 1) (userMessageData u case_text),
         StoreOp.add_message (fresh 0) u (fresh 2) (agentMessageData p),
         StoreOp.update_case_status (fresh 0) "COMPLETED"] := by
      simp [chat, event_generator, opsOf_append, opsOf_preamble_some,
            opsOf_streamItems_some, h, agentOps, opsOf_nil]
    unfold runStore
    rw [hops]
    simp [applyOp, List.foldl, emptyStore, completedStore]
  · have hops : opsOf (chat true (some u) case_text fresh
        (UpOutcome.opened 200 lines none)) =
        [StoreOp.create_case (fresh 0) u (case_text.take 100),
         StoreOp.update_case_status (fresh 0) "PROCESSING",
         StoreOp.add_message (fresh 0) u (fresh 1) (userMessageData u case_text),
         StoreOp.add_message (fresh 0) u (fresh 2)
           (agentMessageData (mock_result case_text)),
         StoreOp.update_case_status (fresh 0) "COMPLETED"] := by
      simp [chat, opsOf_mock_some]
    unfold runStore
    rw [hops]
    simp [applyOp, List.foldl, emptyStore, completedStore]

/-- C4 (witness): the theorem applied at a concrete interaction — subject
`u1`, case text `text`, an upstream stream of one progress and one result
event with the default payload. -/
theorem authenticated_result_persists_once_witness :
    resultsOf [UpLine.event (UpEvent.progress "a"), UpLine.event (UpEvent.result {})] =
      [({} : ResultPayload)] ∧
    runStore emptyStore
        (chat false (some "u1") "text" freshDemo
          (UpOutcome.opened 200
            [UpLine.event (UpEvent.progress "a"), UpLine.event (UpEvent.result {})]
            none)) =
      completedStore (freshDemo 0) "u1" "text" (freshDemo 1) (freshDemo 2) {} :=
  ⟨by decide,
   (authenticated_result_persists_once "u1" "text" freshDemo
      [UpLine.event (UpEvent.progress "a"), UpLine.event (UpEvent.result {})]
      {} (by decide)).1⟩

/-- The Case Store contents after a failed authenticated interaction:
the case in status ERROR and only the USER message — zero AGENT messages. -/
def erroredStore (case_id u case_text mid_user : String) : Store :=
  { cases := [{ id := case_id, owner_id := u, title := case_text.take 100,
                status := "ERROR" }],
    messages :=
      [{ id := mid_user, case_id := case_id, sender_id := u,
         data := userMessageData u case_text }] }

/-- C5: for an authenticated caller, when the upstream call raises
(timeout, connection error — any `NetErr`) after `case_created` has been
emitted and before any result was delivered, the stream ends with a
single in-band synthesized `error` event (the exception is converted, not
propagated), and the store is left with the Case in status ERROR and zero
AGENT messages.  Both a fault while opening the call and a fault during
stream iteration are covered. -/
theorem upstream_fault_single_error_and_error_status (u case_text : String)
    (fresh : Nat → String) (lines : List UpLine) (e : NetErr)
    (h : resultsOf lines = []) :
    (eventsOf (chat false (some u) case_text fresh
        (UpOutcome.opened 200 lines (some e))) =
      RelayEvent.case_created (fresh 0) ::
        ((progressOf lines).map RelayEvent.progress ++
          [RelayEvent.error (netErrMsg e)])) ∧
    ((eventsOf (chat false (some u) case_text fresh
        (UpOutcome.opened 200 lines (some e)))).countP isErrorB = 1) ∧
    (runStore emptyStore (chat false (some u) case_text fresh
        (UpOutcome.opened 200 lines (some e))) =
      erroredStore (fresh 0) u case_text (fresh 1)) ∧
    (eventsOf (chat false (some u) case_text fresh (UpOutcome.openFail e)) =
      [RelayEvent.case_created (fresh 0), RelayEvent.error (netErrMsg e)]) ∧
    (runStore emptyStore (chat false (some u) case_text fresh (UpOutcome.openFail e)) =
      erroredStore (fresh 0) u case_text (fresh 1)) := by
  have hev : eventsOf (chat false (some u) case_text fresh
      (UpOutcome.opened 200 lines (some e))) =
      RelayEvent.case_created (fresh 0) ::
        ((progressOf lines).map RelayEvent.progress ++
          [RelayEvent.error (netErrMsg e)]) := by
    simp [chat, event_generator, eventsOf_append, eventsOf_preamble,
          streamItems_of_no_result _ _ _ _ _ h, eventsOf_map_progress,
          eventsOf_errTail]
  refine ⟨hev, ?_, ?_, ?_, ?_⟩
  · rw [hev]
    simp [List.countP_cons, List.countP_append, List.countP_map,
          isErrorB, Function.comp]
  · have hops : opsOf (chat false (some u) case_text fresh
        (UpOutcome.opened 200 lines (some e))) =
        [StoreOp.create_case (fresh 0) u (case_text.take 100),
         StoreOp.update_case_status (fresh 0) "PROCESSING",
         StoreOp.add_message (fresh 0) u (fresh 1) (userMessageData u case_text),
         StoreOp.update_case_status (fresh 0) "ERROR"] := by
      simp [chat, event_generator, opsOf_append, opsOf_preamble_some,
            opsOf_streamItems_some, h, agentOps, opsOf_errTail_some]
    unfold runStore
    rw [hops]
    simp [applyOp, List.foldl, emptyStore, erroredStore]
  · simp [chat, event_generator, eventsOf_append, eventsOf_preamble,
          eventsOf_errTail]
  · have hops : opsOf (chat false (some u) case_text fresh (UpOutcome.openFail e)) =
        [StoreOp.create_case (fresh 0) u (case_text.take 100),
         StoreOp.update_case_status (fresh 0) "PROCESSING",
         StoreOp.add_message (fresh 0) u (fresh 1) (userMessageData u case_text),
         StoreOp.update_case_status (fresh 0) "ERROR"] := by
      simp [chat, event_generator, opsOf_append, opsOf_preamble_some,
            opsOf_errTail_some]
    unfold runStore
    rw [hops]
    simp [applyOp, List.foldl, emptyStore, erroredStore]

/-- C5 (witness): the theorem applied at a concrete interaction — subject
`u1`, one upstream progress event, then a timeout. -/
theorem upstream_fault_single_error_and_error_status_witness :
    resultsOf [UpLine.event (UpEvent.progress "w")] = [] ∧
    (eventsOf (chat false (some "u1") "text" freshDemo
        (UpOutcome.opened 200 [UpLine.event (UpEvent.progress "w")]
          (some NetErr.timeout))) =
      RelayEvent.case_created (freshDemo 0) ::
        ((progressOf [UpLine.event (UpEvent.progress "w")]).map RelayEvent.progress ++
          [RelayEvent.error (netErrMsg NetErr.timeout)])) ∧
    (runStore emptyStore (chat false (some "u1") "text" freshDemo
        (UpOutcome.opened 200 [UpLine.event (UpEvent.progress "w")]
          (some NetErr.timeout))) =
      erroredStore (freshDemo 0) "u1" "text" (freshDemo 1)) :=
  ⟨by decide,
   (upstream_fault_single_error_and_error_status "u1" "text" freshDemo
      [UpLine.event (UpEvent.progress "w")] NetErr.timeout (by decide)).1,
   (upstream_fault_single_error_and_error_status "u1" "text" freshDemo
      [UpLine.event (UpEvent.progress "w")] NetErr.timeout (by decide)).2.2.1⟩

/-- C6: `GET /api/cases/{id}/full` is owner-isolated: whenever every case
bearing the requested id belongs to a different owner (in particular when
no such case exists at all), the endpoint answers 404; and whenever it
answers 200, the returned case belongs to the requesting subject and
bears the requested id — data of another owner is never returned. -/
theorem get_case_full_owner_isolation (st : Store) (case_id user_id : String) :
    ((∀ c ∈ st.cases, c.id = case_id → c.owner_id ≠ user_id) →
      get_case_full st case_id user_id =
        Except.error
          { status_code := 404,
            detail := "Case not found or you don\x27t have access to this case" }) ∧
    (∀ c msgs, get_case_full st case_id user_id = Except.ok (c, msgs) →
      c.owner_id = user_id ∧ c.id = case_id) := by
  constructor
  · intro h
    have hf : st.cases.find?
        (fun c => c.id == case_id && c.owner_id == user_id) = none := by
      rw [List.find?_eq_none]
      intro c hc
      by_cases hid : c.id = case_id
      · simp [hid, h c hc hid]
      · simp [hid]
    simp [get_case_full, db_get_case_full, hf]
  · intro c msgs hok
    unfold get_case_full db_get_case_full at hok
    cases hfind : st.cases.find?
        (fun c => c.id == case_id && c.owner_id == user_id) with
    | none => rw [hfind] at hok; exact absurd hok (by simp)
    | some c0 =>
        rw [hfind] at hok
        have hp := List.find?_some hfind
        simp at hp
        simp at hok
        exact ⟨hok.1 ▸ hp.2, hok.1 ▸ hp.1⟩

/-- C6 (witness): the theorem applied at a concrete store holding one
case owned by `u2`, queried with the same case id by `u1`: 404. -/
theorem get_case_full_owner_isolation_witness :
    get_case_full
        { cases := [{ id := "c1", owner_id := "u2", title := "t",
                      status := "COMPLETED" }],
          messages := [] } "c1" "u1" =
      Except.error
        { status_code := 404,
          detail := "Case not found or you don\x27t have access to this case" } :=
  (get_case_full_owner_isolation
      { cases := [{ id := "c1", owner_id := "u2", title := "t",
                    status := "COMPLETED" }],
        messages := [] } "c1" "u1").1 (by decide)

/-- C7: in mock mode, for any case text and any authenticated subject,
the emitted event sequence is exactly `case_created`, the eight fixed
progress stages in order, then one `result` whose `case_description`
equals the submitted case text; afterwards `GET /api/cases/{id}/full` for
that subject returns the case in status COMPLETED with its two messages. -/
theorem mock_mode_scenario (u case_text : String) (fresh : Nat → String)
    (up : UpOutcome) :
    (eventsOf (chat true (some u) case_text fresh up) =
      RelayEvent.case_created (fresh 0) ::
        (progress_stages.map RelayEvent.progress ++
          [RelayEvent.result (mock_result case_text)])) ∧
    progress_stages.length = 8 ∧
    (mock_result case_text).case_description = some case_text ∧
    (get_case_full (runStore emptyStore (chat true (some u) case_text fresh up))
        (fresh 0) u =
      Except.ok
        ({ id := fresh 0, owner_id := u, title := case_text.take 100,
           status := "COMPLETED" },
         [{ id := fresh 1, case_id := fresh 0, sender_id := u,
            data := userMessageData u case_text },
          { id := fresh 2, case_id := fresh 0, sender_id := u,
            data := agentMessageData (mock_result case_text) }])) ∧
    ((completedStore (fresh 0) u case_text (fresh 1) (fresh 2)
        (mock_result case_text)).messages.length = 2) := by
  refine ⟨by simp [chat, eventsOf_mock], rfl, rfl, ?_, rfl⟩
  have hops : opsOf (chat true (some u) case_text fresh up) =
      [StoreOp.create_case (fresh 0) u (case_text.take 100),
       StoreOp.update_case_status (fresh 0) "PROCESSING",
       StoreOp.add_message (fresh 0) u (fresh 1) (userMessageData u case_text),
       StoreOp.add_message (fresh 0) u (fresh 2)
         (agentMessageData (mock_result case_text)),
       StoreOp.update_case_status (fresh 0) "COMPLETED"] := by
    simp [chat, opsOf_mock_some]
  have hst : runStore emptyStore (chat true (some u) case_text fresh up) =
      completedStore (fresh 0) u case_text (fresh 1) (fresh 2)
        (mock_result case_text) := by
    unfold runStore
    rw [hops]
    simp [applyOp, List.foldl, emptyStore, completedStore]
  rw [hst]
  simp [get_case_full, db_get_case_full, completedStore, List.find?]

/-- C8 (counterexample): on an identity-required endpoint a MISSING
credential is not reported as 401 — the bearer-scheme guard (FastAPI
`HTTPBearer`) rejects it with HTTP 403 "Not authenticated" before token
verification runs, so the claim that every credential verification
failure yields HTTP 401 is false for the missing-token case. -/
theorem missing_token_is_403_not_401 :
    get_user_id AuthHeader.missing =
      Except.error { status_code := 403, detail := "Not authenticated" } ∧
    (403 : Nat) ≠ 401 :=
  ⟨rfl, by decide⟩

/-- C8 (amended): on an identity-required endpoint, every verification
failure of a PRESENTED bearer token — expired, malformed, wrong
signature, wrong audience — is reported as the same Unauthenticated
condition with HTTP 401, while a missing credential or a non-Bearer
scheme is rejected by the bearer-scheme guard with HTTP 403 before
verification; on the chat endpoint, which accepts anonymous callers, any
invalid or missing bearer token degrades to the anonymous subject (and a
valid token yields its subject). -/
theorem auth_failure_classification :
    (get_user_id (AuthHeader.bearer Token.expired) =
      Except.error { status_code := 401, detail := "Token has expired" }) ∧
    (get_user_id (AuthHeader.bearer Token.malformed) =
      Except.error { status_code := 401, detail := "Invalid token" }) ∧
    (get_user_id (AuthHeader.bearer Token.wrongSignature) =
      Except.error { status_code := 401, detail := "Invalid token" }) ∧
    (get_user_id (AuthHeader.bearer Token.wrongAudience) =
      Except.error { status_code := 401, detail := "Invalid token" }) ∧
    (get_user_id AuthHeader.missing =
      Except.error { status_code := 403, detail := "Not authenticated" }) ∧
    (∀ r, get_user_id (AuthHeader.nonBearer r) =
      Except.error
        { status_code := 403, detail := "Invalid authentication credentials" }) ∧
    (∀ s, get_user_id (AuthHeader.bearer (Token.valid s)) = Except.ok s) ∧
    (∀ s, get_optional_user_id (AuthHeader.bearer (Token.valid s)) = some s) ∧
    (get_optional_user_id AuthHeader.missing = none) ∧
    (∀ r, get_optional_user_id (AuthHeader.nonBearer r) = none) ∧
    (get_optional_user_id (AuthHeader.bearer Token.expired) = none) ∧
    (get_optional_user_id (AuthHeader.bearer Token.malformed) = none) ∧
    (get_optional_user_id (AuthHeader.bearer Token.wrongSignature) = none) ∧
    (get_optional_user_id (AuthHeader.bearer Token.wrongAudience) = none) := by
  refine ⟨rfl, rfl, rfl, rfl, rfl, fun r => rfl, fun s => rfl, fun s => rfl,
    rfl, fun r => rfl, rfl, rfl, rfl, rfl⟩

/-- The progress-message contents of a client-facing event sequence. -/
def progressMsgs (evs : List RelayEvent) : List String :=
  evs.filterMap fun e =>
    match e with
    | RelayEvent.progress m => some m
    | _ => none

theorem progressMsgs_append (a b : List RelayEvent) :
    progressMsgs (a ++ b) = progressMsgs a ++ progressMsgs b := by
  simp [progressMsgs, List.filterMap_append]

theorem progressMsgs_nil : progressMsgs [] = [] := rfl

theorem progressMsgs_cons_cc (cid : String) (t : List RelayEvent) :
    progressMsgs (RelayEvent.case_created cid :: t) = progressMsgs t := rfl

theorem progressMsgs_cons_err (m : String) (t : List RelayEvent) :
    progressMsgs (RelayEvent.error m :: t) = progressMsgs t := rfl

theorem progressMsgs_streamEvents (lines : List UpLine) :
    progressMsgs (streamEvents lines) = progressOf lines := by
  induction lines with
  | nil => rfl
  | cons l rest ih =>
      cases l with
      | noData r => simpa [streamEvents, progressOf] using ih
      | badJson r => simpa [streamEvents, progressOf] using ih
      | event e =>
          cases e with
          | progress m => simpa [streamEvents, progressOf, progressMsgs] using ih
          | result d => simpa [streamEvents, progressOf, progressMsgs] using ih
          | errorEvt m => simpa [streamEvents, progressOf] using ih
          | other t => simpa [streamEvents, progressOf] using ih

theorem resultsOf_filter_nonprogress (lines : List UpLine) :
    resultsOf (lines.filter (fun l => !isProgressLine l)) = resultsOf lines := by
  induction lines with
  | nil => rfl
  | cons l rest ih =>
      cases l with
      | noData r => simpa [List.filter, isProgressLine, resultsOf] using ih
      | badJson r => simpa [List.filter, isProgressLine, resultsOf] using ih
      | event e =>
          cases e with
          | progress m => simpa [List.filter, isProgressLine, resultsOf] using ih
          | result d => simpa [List.filter, isProgressLine, resultsOf] using ih
          | errorEvt m => simpa [List.filter, isProgressLine, resultsOf] using ih
          | other t => simpa [List.filter, isProgressLine, resultsOf] using ih

/-- C9: every upstream `progress` event is forwarded verbatim — the
progress messages of the emitted event sequence are exactly the progress
messages of the upstream stream, in order and unmodified — and progress
events are never written to the Case Store: deleting every upstream
progress event changes no store operation of the interaction.  Both hold
for authenticated and anonymous callers alike, for any stream tail. -/
theorem progress_forwarded_verbatim_never_stored :
    (∀ (user_id : Option String) (case_text : String) (fresh : Nat → String)
        (lines : List UpLine) (tail : Option NetErr),
      progressMsgs (eventsOf (chat false user_id case_text fresh
          (UpOutcome.opened 200 lines tail))) = progressOf lines) ∧
    (∀ (user_id : Option String) (case_text : String) (fresh : Nat → String)
        (lines : List UpLine) (tail : Option NetErr),
      opsOf (chat false user_id case_text fresh
          (UpOutcome.opened 200 lines tail)) =
        opsOf (chat false user_id case_text fresh
          (UpOutcome.opened 200 (lines.filter (fun l => !isProgressLine l)) tail))) := by
  constructor
  · intro user_id case_text fresh lines tail
    cases tail with
    | none =>
        simp [chat, event_generator, eventsOf_append, eventsOf_preamble,
              eventsOf_streamItems, eventsOf_nil, progressMsgs_append,
              progressMsgs_streamEvents, progressMsgs_nil, progressMsgs_cons_cc,
              progressMsgs_cons_err]
    | some e =>
        simp [chat, event_generator, eventsOf_append, eventsOf_preamble,
              eventsOf_streamItems, eventsOf_errTail, progressMsgs_append,
              progressMsgs_streamEvents, progressMsgs_nil, progressMsgs_cons_cc,
              progressMsgs_cons_err]
  · intro user_id case_text fresh lines tail
    cases user_id with
    | none =>
        cases tail <;>
          simp [chat, event_generator, opsOf_append, opsOf_preamble_none,
                opsOf_streamItems_none]
    | some u =>
        cases tail <;>
          simp [chat, event_generator, opsOf_append, opsOf_preamble_some,
                opsOf_streamItems_some, resultsOf_filter_nonprogress]

/-- C10: for every authenticated chat interaction (mock or real, any
upstream outcome), the trace begins with the Case creation, the
transition to PROCESSING, and the persistence of the USER message, in
that order, and only then the `case_created` event — so `case_created`
is never delivered to an authenticated client before the Case and its
USER message exist in the store. -/
theorem authenticated_persistence_precedes_case_created (useMock : Bool)
    (u case_text : String) (fresh : Nat → String) (up : UpOutcome) :
    ∃ rest, chat useMock (some u) case_text fresh up =
      Item.op (StoreOp.create_case (fresh 0) u (case_text.take 100)) ::
      Item.op (StoreOp.update_case_status (fresh 0) "PROCESSING") ::
      Item.op (StoreOp.add_message (fresh 0) u (fresh 1) (userMessageData u case_text)) ::
      Item.evt (RelayEvent.case_created (fresh 0)) :: rest := by
  cases useMock with
  | false => exact ⟨_, rfl⟩
  | true => exact ⟨_, rfl⟩
